import Mathlib

set_option maxHeartbeats 1000000

/-
Verification of the serverless proxy endpoints of the COD-LLMs playground.

The repository ships five request handlers spread over three files:
  * `api/streaming-edge.js` — an edge function that relays a Fireworks
    chat-completion stream chunk by chunk (`pump`);
  * `api/proxy.js` — a buffered Fireworks chat proxy, followed by the
    Abacus.AI research-agent proxy (`agents/execute`);
  * `api/abacus-websearch.js` — the Abacus.AI web-search proxy, followed by a
    second Fireworks chat proxy whose streaming branch uses `body.pipe(res)`.

The development below embeds the request shaping, the upstream-call
construction, the stream relays and the full response logic of each handler
as executable Lean functions, and proves the stated claims about them.
-/

/-- JavaScript values as they occur in the request and response bodies
handled by the endpoints.  Composite values (arrays, nested objects) that no
handler inspects field by field are represented opaquely by `other`. -/
inductive JVal where
  | undef
  | null
  | num (n : Int)
  | str (s : String)
  | jbool (b : Bool)
  | other (tag : Nat)
deriving DecidableEq

/-- A JSON object, as an association list of fields.  Lookup takes the first
binding, matching property lookup on the objects built by the handlers. -/
abbrev ReqBody := List (String × JVal)

/-- JavaScript truthiness for the values of the model: `undefined`, `null`,
`0`, `""` and `false` are falsy, everything else (including any composite
value) is truthy. -/
def truthy : JVal → Bool
  | .undef => false
  | .null => false
  | .num n => n != 0
  | .str s => s != ""
  | .jbool b => b
  | .other _ => true

/-- The JavaScript expression `a || b`. -/
def jsOr (a b : JVal) : JVal := if truthy a then a else b

/-- Property read `body.k`: the first binding of `k`, `undefined` if the
object has no such property. -/
def getField : ReqBody → String → JVal
  | [], _ => .undef
  | kv :: rest, k => if kv.1 == k then kv.2 else getField rest k

/-- Property override, as performed by an object-spread literal
`\x7b...body, k: v\x7d`: the first binding of `k` is replaced (later
duplicates are irrelevant to lookup), or the binding is appended. -/
def setField : ReqBody → String → JVal → ReqBody
  | [], k, v => [(k, v)]
  | kv :: rest, k, v => if kv.1 == k then (k, v) :: rest else kv :: setField rest k v

/-- The effect of `JSON.stringify` on an object: properties whose value is
`undefined` are omitted from the serialized body; `null` properties are kept. -/
def stringifyFields (b : ReqBody) : ReqBody :=
  b.filter (fun kv => kv.2 != JVal.undef)

/-- Substring search on the underlying character lists: some suffix of the
scanned list starts with the pattern. -/
def listContains (sub : List Char) : List Char → Bool
  | [] => List.isPrefixOf sub []
  | a :: t => List.isPrefixOf sub (a :: t) || listContains sub t

/-- `s` contains `sub` as a substring (decidable by scanning every suffix). -/
def containsStr (s sub : String) : Bool :=
  listContains sub.toList s.toList

lemma isPrefixOf_self (l : List Char) : List.isPrefixOf l l = true := by
  induction l with
  | nil => rfl
  | cons a t ih => simp [List.isPrefixOf, ih]

lemma listContains_self (l : List Char) : listContains l l = true := by
  cases l with
  | nil => rfl
  | cons a t => simp [listContains, isPrefixOf_self]

lemma listContains_nil (l : List Char) : listContains [] l = true := by
  cases l with
  | nil => rfl
  | cons a t => simp [listContains, List.isPrefixOf]

lemma containsStr_self (s : String) : containsStr s s = true :=
  listContains_self s.toList

lemma containsStr_empty (s : String) : containsStr s "" = true :=
  listContains_nil s.toList

/- ### `max_tokens` normalization

All three Fireworks chat handlers contain, verbatim:
`const originalMaxTokens = requestBody.max_tokens || 4096;`
`const validatedMaxTokens = Math.min(Math.max(1, originalMaxTokens), 8192);` -/

/-- `requestBody.max_tokens || 4096`. -/
def defaultedMaxTokens (v : JVal) : JVal := jsOr v (.num 4096)

/-- `Math.min(Math.max(1, n), 8192)` on a number. -/
def clampNum (n : Int) : Int := min (max 1 n) 8192

/-- The validated `max_tokens` value placed into the outbound payload.  The
non-numeric truthy case (where JavaScript arithmetic would produce `NaN`) is
outside the model; every theorem that uses this definition restricts the
inbound field to a number, `null` or an absent property. -/
def validatedMaxTokens (v : JVal) : JVal :=
  match defaultedMaxTokens v with
  | .num n => .num (clampNum n)
  | w => w

/-- The inbound `max_tokens` values covered by the model: a number, `null`,
or an absent (`undefined`) property. -/
def isNumericOrAbsent : JVal → Bool
  | .undef => true
  | .null => true
  | .num _ => true
  | _ => false

lemma validatedMaxTokens_isNum (v : JVal) (h : isNumericOrAbsent v = true) :
    ∃ n : Int, validatedMaxTokens v = JVal.num n := by
  cases v with
  | undef => exact ⟨4096, by decide⟩
  | null => exact ⟨4096, by decide⟩
  | num n =>
    by_cases h0 : n = 0
    · subst h0; exact ⟨4096, by decide⟩
    · refine ⟨clampNum n, ?_⟩
      simp [validatedMaxTokens, defaultedMaxTokens, jsOr, truthy, h0]
  | str s => simp [isNumericOrAbsent] at h
  | jbool b => simp [isNumericOrAbsent] at h
  | other t => simp [isNumericOrAbsent] at h

lemma clampNum_mem (n : Int) : 1 ≤ clampNum n ∧ clampNum n ≤ 8192 := by
  constructor
  · exact le_min (le_max_left 1 n) (by norm_num)
  · exact min_le_right _ _

lemma clampNum_id (n : Int) (h1 : 1 ≤ n) (h2 : n ≤ 8192) : clampNum n = n := by
  unfold clampNum
  rw [max_eq_right h1, min_eq_left h2]

/- ### Outbound chat payloads -/

/-- A field value is neither `undefined` nor `null` (the keep-condition of the
`delete`-loop in `streaming-edge.js`). -/
def notNullish (v : JVal) : Bool := v != JVal.undef && v != JVal.null

/-- `cleanedParams` from `streaming-edge.js`: the six listed fields, with the
validated `max_tokens`, the hard-coded `stream: true`, and every `undefined`
or `null` field removed afterwards. -/
def cleanedParams (b : ReqBody) : ReqBody :=
  ([("model", getField b "model"),
    ("messages", getField b "messages"),
    ("max_tokens", validatedMaxTokens (getField b "max_tokens")),
    ("temperature", getField b "temperature"),
    ("top_p", getField b "top_p"),
    ("stream", JVal.jbool true)] : ReqBody).filter (fun kv => notNullish kv.2)

/-- `requestBody.threadId || requestBody.user || `thread-$now`` from
`proxy.js` (`Date.now()` is passed in as `now`). -/
def threadId (b : ReqBody) (now : Int) : JVal :=
  jsOr (getField b "threadId")
    (jsOr (getField b "user") (.str ("thread-" ++ toString now)))

/-- `modifiedRequestBody` from `proxy.js`: the inbound body spread with the
validated `max_tokens` and the thread id as `user`. -/
def modifiedRequestBody (b : ReqBody) (now : Int) : ReqBody :=
  setField (setField b "max_tokens" (validatedMaxTokens (getField b "max_tokens")))
    "user" (threadId b now)

/-- The serialized outbound body of the buffered `proxy.js` handler:
`JSON.stringify(modifiedRequestBody)`. -/
def proxyOutboundBody (b : ReqBody) (now : Int) : ReqBody :=
  stringifyFields (modifiedRequestBody b now)

/-- The serialized outbound body of the second Fireworks proxy (in
`abacus-websearch.js`): `JSON.stringify(\x7b...requestBody, max_tokens:
validatedMaxTokens\x7d)`. -/
def proxy2OutboundBody (b : ReqBody) : ReqBody :=
  stringifyFields (setField b "max_tokens" (validatedMaxTokens (getField b "max_tokens")))

lemma getField_setField_self (b : ReqBody) (k : String) (v : JVal) :
    getField (setField b k v) k = v := by
  induction b with
  | nil => simp [setField, getField]
  | cons kv rest ih =>
    obtain ⟨k0, v0⟩ := kv
    by_cases h : (k0 == k) = true
    · simp [setField, getField, h]
    · simp only [Bool.not_eq_true] at h
      simp [setField, getField, h, ih]

lemma getField_setField_ne (b : ReqBody) (k k' : String) (v : JVal)
    (h : (k == k') = false) :
    getField (setField b k v) k' = getField b k' := by
  induction b with
  | nil => simp [setField, getField, h]
  | cons kv rest ih =>
    obtain ⟨k0, v0⟩ := kv
    by_cases h0 : (k0 == k) = true
    · have hk0 : k0 = k := by simpa using h0
      subst hk0
      simp [setField, getField, h0, h]
    · simp only [Bool.not_eq_true] at h0
      simp [setField, getField, h0, ih]

lemma getField_stringifyFields (b : ReqBody) (k : String)
    (h : getField b k ≠ JVal.undef) :
    getField (stringifyFields b) k = getField b k := by
  induction b with
  | nil => simp [stringifyFields]
  | cons kv rest ih =>
    obtain ⟨k0, v0⟩ := kv
    by_cases hk : (k0 == k) = true
    · have hv : getField ((k0, v0) :: rest) k = v0 := by simp [getField, hk]
      rw [hv] at h ⊢
      have hvb : (v0 != JVal.undef) = true := by simpa [bne] using h
      simp [stringifyFields, List.filter_cons, hvb, getField, hk]
    · have hk' : (k0 == k) = false := by simpa using hk
      have hg : getField ((k0, v0) :: rest) k = getField rest k := by
        simp [getField, hk']
      rw [hg] at h ⊢
      by_cases hv : (v0 != JVal.undef) = true
      · rw [show stringifyFields ((k0, v0) :: rest) = (k0, v0) :: stringifyFields rest from by
          simp [stringifyFields, List.filter_cons, hv]]
        rw [show getField ((k0, v0) :: stringifyFields rest) k = getField (stringifyFields rest) k from by
          simp [getField, hk']]
        exact ih h
      · have hv' : (v0 != JVal.undef) = false := by simpa using hv
        rw [show stringifyFields ((k0, v0) :: rest) = stringifyFields rest from by
          simp [stringifyFields, List.filter_cons, hv']]
        exact ih h

lemma getField_filter_cons_ne (p : String × JVal → Bool) (e : String × JVal)
    (l : ReqBody) (k : String) (h : (e.1 == k) = false) :
    getField (List.filter p (e :: l)) k = getField (List.filter p l) k := by
  rw [List.filter_cons]
  split
  · simp [getField, h]
  · rfl

lemma getField_filter_cons_self (p : String × JVal → Bool) (e : String × JVal)
    (l : ReqBody) (k : String) (hk : (e.1 == k) = true) (hp : p e = true) :
    getField (List.filter p (e :: l)) k = e.2 := by
  rw [List.filter_cons, if_pos hp]
  simp [getField, hk]

/- ### Stream relays -/

/-- How a relayed upstream body terminates: normal completion of the reader,
or a mid-stream failure (the exception's message). -/
inductive StreamEnd where
  | done
  | errored (msg : String)
deriving DecidableEq

/-- An observable action on the client-side channel: a written chunk, or
closing the channel. -/
inductive RelayAct where
  | write (chunk : String)
  | close
deriving DecidableEq

/-- The termination sentinel written by the edge relay: `data: [DONE]\n\n`. -/
def doneChunk : String := "data: [DONE]\n\n"

/-- The error-shaped sentinel chunk written by the edge relay on a mid-stream
failure: `data: JSON.stringify(\x7berror: true, message\x7d)\n\n` (JSON string
escaping of the message is not modelled). -/
def errChunk (msg : String) : String :=
  "data: \x7b\"error\":true,\"message\":\"" ++ msg ++ "\"\x7d\n\n"

/-- The `pump` loop of `streaming-edge.js` applied to an upstream body that
delivers `chunks` and then terminates as `fin`: each read chunk is written
through unmodified; on `done` the sentinel is written and the writer closed;
on a failure the catch block writes the error chunk, then the sentinel, then
closes. -/
def pumpTrace : List String → StreamEnd → List RelayAct
  | [], .done => [.write doneChunk, .close]
  | [], .errored m => [.write (errChunk m), .write doneChunk, .close]
  | c :: rest, fin => .write c :: pumpTrace rest fin

/-- The `response.body.pipe(res)` relay of the second Fireworks proxy in
`abacus-websearch.js`: every chunk of the source is forwarded to `res`
unmodified and in order, and `res` is ended when the source ends; the handler
writes nothing of its own (its `end`/`error` listeners only log). -/
def pipeTrace (chunks : List String) : List RelayAct :=
  chunks.map RelayAct.write ++ [RelayAct.close]

/-- The tail of the pump trace after the forwarded chunks. -/
def finTrace : StreamEnd → List RelayAct
  | .done => [.write doneChunk, .close]
  | .errored m => [.write (errChunk m), .write doneChunk, .close]

/-- Number of channel closes in a trace. -/
def closeCount (t : List RelayAct) : Nat :=
  t.countP (fun a => a == RelayAct.close)

lemma pumpTrace_eq (chunks : List String) (fin : StreamEnd) :
    pumpTrace chunks fin = chunks.map RelayAct.write ++ finTrace fin := by
  induction chunks with
  | nil => cases fin <;> rfl
  | cons c rest ih => simp [pumpTrace, ih]

lemma closeCount_writes (chunks : List String) (tail : List RelayAct) :
    closeCount (chunks.map RelayAct.write ++ tail) = closeCount tail := by
  induction chunks with
  | nil => rfl
  | cons c rest _ih => simp [closeCount, List.countP_cons]

/- ### Outbound upstream calls -/

/-- An outbound HTTP call as issued by a handler: target URL, header list,
and the serialized JSON body. -/
structure OutboundCall where
  url : String
  headers : List (String × String)
  body : ReqBody
deriving DecidableEq

/-- The Fireworks chat-completions URL used by all three chat handlers. -/
def fireworksURL : String := "https://api.fireworks.ai/inference/v1/chat/completions"

/-- The outbound call of `streaming-edge.js` (`apiRequestOptions`): the
credential as a bearer token, the cleaned parameters as body (already free of
`undefined` fields, so serialization drops nothing further). -/
def edgeCall (apiKey : String) (b : ReqBody) : OutboundCall :=
  ⟨fireworksURL,
   [("Content-Type", "application/json"), ("Authorization", "Bearer " ++ apiKey)],
   cleanedParams b⟩

/-- The outbound call of the buffered `proxy.js` handler. -/
def proxyCall (apiKey : String) (b : ReqBody) (now : Int) : OutboundCall :=
  ⟨fireworksURL,
   [("Content-Type", "application/json"), ("Authorization", "Bearer " ++ apiKey)],
   proxyOutboundBody b now⟩

/-- The outbound call of the research-agent handler in `proxy.js`:
`fetch(abacusAPIUrl + "/agents/execute")` with only a `Content-Type` header,
and a payload carrying `deployment_token`, `deployment_id` and the keyword
arguments (the composite `\x7bsubject, email?\x7d` value is opaque here). -/
def researchCall (token deployId : String) (_b : ReqBody) : OutboundCall :=
  ⟨"https://api.abacus.ai/api/agents/execute",
   [("Content-Type", "application/json")],
   [("deployment_token", .str token), ("deployment_id", .str deployId),
    ("keyword_arguments", .other 0)]⟩

/-- The outbound call of the web-search handler in `abacus-websearch.js`: the
deployment token as a bearer token, the deployment id and the input
(`\x7bquery\x7d`, opaque here) in the body. -/
def websearchCall (token deployId : String) (_b : ReqBody) : OutboundCall :=
  ⟨"https://api.abacus.ai/api/v0/deployment/predict",
   [("Content-Type", "application/json"), ("Authorization", "Bearer " ++ token)],
   [("deploymentId", .str deployId), ("input", .other 0)]⟩

/-- The outbound call of the second Fireworks proxy in `abacus-websearch.js`. -/
def proxy2Call (apiKey : String) (b : ReqBody) : OutboundCall :=
  ⟨fireworksURL,
   [("Content-Type", "application/json"), ("Authorization", "Bearer " ++ apiKey)],
   proxy2OutboundBody b⟩

/- ### Handlers -/

/-- The inbound HTTP method, as far as the handlers distinguish it. -/
inductive Method where
  | options
  | post
  | get
  | otherM
deriving DecidableEq

/-- A response body: empty (preflight), a JSON object, or a relayed stream. -/
inductive RespBody where
  | empty
  | json (fields : ReqBody)
  | streamBody (trace : List RelayAct)
deriving DecidableEq

/-- An HTTP response as assembled by a handler. -/
structure Response where
  status : Nat
  headers : List (String × String)
  body : RespBody
deriving DecidableEq

/-- The overall effect of one handler invocation: the response sent, and the
outbound upstream call, if one was issued (`none` when the handler returned
before `fetch`). -/
structure HandlerResult where
  resp : Response
  call : Option OutboundCall

/-- What the upstream `Response` object looks like once `fetch` resolved:
status, status text, the result of a later `response.text()` (`Except.error`
models that read rejecting), the parsed JSON `data` of a success body, and —
for the web-search handler only — the value of `data.output?.search_output`
(a nested access this flat field model takes as an input). -/
structure UpResp where
  status : Nat
  statusText : String
  textResult : Except String String
  data : ReqBody
  searchOutput : JVal

/-- How the outbound `fetch` ended: resolved with a response, or rejected
with an error carrying a name and a message (`name = "AbortError"` is what
`controller.abort()` — fired by the timeout timer — produces). -/
inductive UpstreamOutcome where
  | resp (r : UpResp)
  | failure (name msg : String)

/-- `response.ok`: the status is in the 2xx range. -/
def okStatus (s : Nat) : Bool := decide (200 ≤ s ∧ s ≤ 299)

/-- The CORS header emitted on every path. -/
def corsHeader : String × String := ("Access-Control-Allow-Origin", "*")

/-- Headers of the edge preflight response (also those of the research,
web-search and second-proxy preflights, which set the same four headers). -/
def agentPreflightHeaders : List (String × String) :=
  [corsHeader,
   ("Access-Control-Allow-Methods", "GET, POST, OPTIONS"),
   ("Access-Control-Allow-Headers", "Content-Type, Authorization"),
   ("Access-Control-Max-Age", "86400")]

/-- Headers of the `proxy.js` preflight response (no `Max-Age`, and only
`POST, OPTIONS` are advertised). -/
def proxyPreflightHeaders : List (String × String) :=
  [corsHeader,
   ("Access-Control-Allow-Headers", "Content-Type, Authorization"),
   ("Access-Control-Allow-Methods", "POST, OPTIONS")]

/-- A 204 preflight response with the given headers. -/
def preflight (hs : List (String × String)) : Response := ⟨204, hs, .empty⟩

/-- The `405 Method Not Allowed` response, identical in all five handlers. -/
def method405 : Response :=
  ⟨405,
   [("Content-Type", "application/json"), corsHeader, ("Allow", "POST")],
   .json [("error", .str "Method Not Allowed")]⟩

/-- A JSON response carrying the two headers set on every error path. -/
def mkJson (status : Nat) (fields : ReqBody) : Response :=
  ⟨status, [("Content-Type", "application/json"), corsHeader], .json fields⟩

/-- A 200 JSON response of the buffered handlers (extra `Cache-Control`). -/
def mk200 (fields : ReqBody) : Response :=
  ⟨200,
   [("Content-Type", "application/json"), corsHeader,
    ("Cache-Control", "no-cache, no-store, must-revalidate")],
   .json fields⟩

/-- A streamed response: event-stream content type, keep-alive, CORS. -/
def streamResponse (trace : List RelayAct) : Response :=
  ⟨200,
   [("Content-Type", "text/event-stream"), ("Cache-Control", "no-cache"),
    ("Connection", "keep-alive"), corsHeader],
   .streamBody trace⟩

/-- `data.performance = ...` guarded by `if (data && !data.error)`: the parsed
object is always truthy, so the metrics (opaque here) are attached whenever
`data.error` is falsy. -/
def addPerformance (data : ReqBody) : ReqBody :=
  if truthy (getField data "error") then data
  else setField data "performance" (.other 0)

/-- `errorMessage` of `streaming-edge.js` on a non-ok upstream response:
initialized to `API Error: status`, replaced by the error body when that
reads successfully and is non-empty (`errorText || errorMessage`). -/
def edgeErrorMessage (r : UpResp) : String :=
  match r.textResult with
  | .ok t => if t != "" then t else "API Error: " ++ toString r.status
  | .error _ => "API Error: " ++ toString r.status

/-- The per-endpoint timeout bounds installed via `setTimeout(...,
controller.abort)`, in milliseconds. `streaming-edge.js` installs none. -/
def proxyTimeoutMs : Nat := 120000

def researchTimeoutMs : Nat := 180000

def websearchTimeoutMs : Nat := 30000

def proxy2TimeoutMs : Nat := 120000

def proxyTimeoutMessage : String :=
  "The request to the LLM API took too long to complete (>120 seconds). Try reducing complexity or using fewer tokens."

def researchTimeoutMessage : String :=
  "The research agent request took too long to complete (>3 minutes). Try a more specific research query."

def websearchTimeoutMessage : String :=
  "The web search request took too long to complete (>30 seconds). Try a more specific search query."

/-- The edge handler of `streaming-edge.js`.  Inputs: the method, the
`FIREWORKS_API_KEY` environment value, the result of `request.json()`, the
`fetch` outcome, and the chunks/termination of the upstream body.  The
in-place default `requestBody.stream = true` (dead for the outbound payload,
which hard-codes `stream: true`) is not modelled.  A rejected `fetch` of any
kind lands in the outer catch (there is no timeout controller here), which
answers 500 with `error.message || 'Unknown error'` and a `details` object
(opaque). -/
def streamingEdgeHandler (m : Method) (apiKey : Option String)
    (parsed : Except String ReqBody) (up : UpstreamOutcome)
    (chunks : List String) (fin : StreamEnd) : HandlerResult :=
  match m with
  | .options => ⟨preflight agentPreflightHeaders, none⟩
  | .post =>
    match apiKey with
    | none =>
      ⟨mkJson 500
        [("error", .str "API key not configured"),
         ("message", .str "Please set FIREWORKS_API_KEY in your Vercel environment variables")],
       none⟩
    | some key =>
      match parsed with
      | .error pm =>
        ⟨mkJson 400
          [("error", .str "Invalid JSON in request body"), ("message", .str pm)],
         none⟩
      | .ok b =>
        match up with
        | .resp r =>
          if okStatus r.status then
            ⟨streamResponse (pumpTrace chunks fin), some (edgeCall key b)⟩
          else
            ⟨mkJson r.status
              [("error", .jbool true), ("message", .str (edgeErrorMessage r))],
             some (edgeCall key b)⟩
        | .failure _ msg =>
          ⟨mkJson 500
            [("error", jsOr (.str msg) (.str "Unknown error")), ("details", .other 0)],
           some (edgeCall key b)⟩
  | _ => ⟨method405, none⟩

/-- The buffered Fireworks proxy of `proxy.js`.  The unguarded
`response.text()` on the non-ok path may itself reject; that rejection is
caught by the `fetchError` catch, whose `AbortError` test fails for a body
read error, yielding `500 Request Failed`. -/
def proxyHandler (m : Method) (apiKey : Option String)
    (parsed : Except String ReqBody) (now : Int)
    (up : UpstreamOutcome) : HandlerResult :=
  match m with
  | .options => ⟨preflight proxyPreflightHeaders, none⟩
  | .post =>
    match apiKey with
    | none => ⟨mkJson 500 [("error", .str "API key not configured on server")], none⟩
    | some key =>
      match parsed with
      | .error pm =>
        ⟨mkJson 400
          [("error", .str "Bad Request"),
           ("message", .str ("Error processing request: " ++ pm))],
         none⟩
      | .ok b =>
        match up with
        | .resp r =>
          if okStatus r.status then
            ⟨mk200 (addPerformance r.data), some (proxyCall key b now)⟩
          else
            match r.textResult with
            | .ok t =>
              ⟨mkJson r.status
                [("error", .str ("API Error: " ++ r.statusText)), ("details", .str t)],
               some (proxyCall key b now)⟩
            | .error em =>
              ⟨mkJson 500 [("error", .str "Request Failed"), ("message", .str em)],
               some (proxyCall key b now)⟩
        | .failure nm msg =>
          if nm == "AbortError" then
            ⟨mkJson 504
              [("error", .str "Gateway Timeout"), ("message", .str proxyTimeoutMessage)],
             some (proxyCall key b now)⟩
          else
            ⟨mkJson 500 [("error", .str "Request Failed"), ("message", .str msg)],
             some (proxyCall key b now)⟩
  | _ => ⟨method405, none⟩

/-- The research-agent handler of `proxy.js` (`agents/execute`). -/
def researchHandler (m : Method) (token deployId : Option String)
    (parsed : Except String ReqBody) (up : UpstreamOutcome) : HandlerResult :=
  match m with
  | .options => ⟨preflight agentPreflightHeaders, none⟩
  | .post =>
    match token, deployId with
    | some tk, some did =>
      match parsed with
      | .error pm =>
        ⟨mkJson 400
          [("error", .str "Invalid JSON in request body"), ("message", .str pm)],
         none⟩
      | .ok b =>
        if truthy (getField b "query") then
          match up with
          | .resp r =>
            if okStatus r.status then
              ⟨mk200
                [("research_papers",
                  jsOr (getField r.data "research_papers") (.str "No research papers found.")),
                 ("success", .jbool true)],
               some (researchCall tk did b)⟩
            else
              match r.textResult with
              | .ok t =>
                ⟨mkJson r.status
                  [("error", .str ("Abacus.AI API Error: " ++ r.statusText)),
                   ("details", .str t)],
                 some (researchCall tk did b)⟩
              | .error em =>
                ⟨mkJson 500 [("error", .str "Request Failed"), ("message", .str em)],
                 some (researchCall tk did b)⟩
          | .failure nm msg =>
            if nm == "AbortError" then
              ⟨mkJson 504
                [("error", .str "Gateway Timeout"), ("message", .str researchTimeoutMessage)],
               some (researchCall tk did b)⟩
            else
              ⟨mkJson 500 [("error", .str "Request Failed"), ("message", .str msg)],
               some (researchCall tk did b)⟩
        else
          ⟨mkJson 400 [("error", .str "Missing required parameter: query")], none⟩
    | _, _ =>
      ⟨mkJson 500
        [("error", .str "Abacus.AI credentials not configured"),
         ("message", .str "Please set ABACUS_DEPLOYMENT_TOKEN and ABACUS_DEPLOYMENT_ID in your Vercel environment variables")],
       none⟩
  | _ => ⟨method405, none⟩

/-- The web-search handler of `abacus-websearch.js`. -/
def websearchHandler (m : Method) (token deployId : Option String)
    (parsed : Except String ReqBody) (up : UpstreamOutcome) : HandlerResult :=
  match m with
  | .options => ⟨preflight agentPreflightHeaders, none⟩
  | .post =>
    match token, deployId with
    | some tk, some did =>
      match parsed with
      | .error pm =>
        ⟨mkJson 400
          [("error", .str "Invalid JSON in request body"), ("message", .str pm)],
         none⟩
      | .ok b =>
        if truthy (getField b "query") then
          match up with
          | .resp r =>
            if okStatus r.status then
              ⟨mk200
                [("search_results", jsOr r.searchOutput (.str "No search results found.")),
                 ("success", .jbool true)],
               some (websearchCall tk did b)⟩
            else
              match r.textResult with
              | .ok t =>
                ⟨mkJson r.status
                  [("error", .str ("Abacus.AI API Error: " ++ r.statusText)),
                   ("details", .str t)],
                 some (websearchCall tk did b)⟩
              | .error em =>
                ⟨mkJson 500 [("error", .str "Request Failed"), ("message", .str em)],
                 some (websearchCall tk did b)⟩
          | .failure nm msg =>
            if nm == "AbortError" then
              ⟨mkJson 504
                [("error", .str "Gateway Timeout"), ("message", .str websearchTimeoutMessage)],
               some (websearchCall tk did b)⟩
            else
              ⟨mkJson 500 [("error", .str "Request Failed"), ("message", .str msg)],
               some (websearchCall tk did b)⟩
        else
          ⟨mkJson 400 [("error", .str "Missing required parameter: query")], none⟩
    | _, _ =>
      ⟨mkJson 500
        [("error", .str "Abacus.AI Web Search credentials not configured"),
         ("message", .str "Please set ABACUS_WEBSEARCH_TOKEN and ABACUS_WEBSEARCH_ID in your Vercel environment variables")],
       none⟩
  | _ => ⟨method405, none⟩

/-- `errorDetails` of the second Fireworks proxy: initialized to `Status
code: status`, replaced by the error body when it reads successfully (even
when empty — there is no `||` fallback here). -/
def proxy2ErrorDetails (r : UpResp) : String :=
  match r.textResult with
  | .ok t => t
  | .error _ => "Status code: " ++ toString r.status

/-- The second Fireworks proxy in `abacus-websearch.js`: buffered by default,
`response.body.pipe(res)` when the inbound body has `stream === true`. -/
def proxy2Handler (m : Method) (apiKey : Option String)
    (parsed : Except String ReqBody) (up : UpstreamOutcome)
    (chunks : List String) : HandlerResult :=
  match m with
  | .options => ⟨preflight agentPreflightHeaders, none⟩
  | .post =>
    match apiKey with
    | none =>
      ⟨mkJson 500
        [("error", .str "API key not configured"),
         ("message", .str "Please set FIREWORKS_API_KEY in your Vercel environment variables")],
       none⟩
    | some key =>
      match parsed with
      | .error pm =>
        ⟨mkJson 400
          [("error", .str "Invalid JSON in request body"), ("message", .str pm)],
         none⟩
      | .ok b =>
        match up with
        | .resp r =>
          if okStatus r.status then
            if getField b "stream" == JVal.jbool true then
              ⟨streamResponse (pipeTrace chunks), some (proxy2Call key b)⟩
            else
              ⟨mk200 (addPerformance r.data), some (proxy2Call key b)⟩
          else
            ⟨mkJson r.status
              [("error", .str ("API Error: " ++ r.statusText)),
               ("details", .str (proxy2ErrorDetails r))],
             some (proxy2Call key b)⟩
        | .failure nm msg =>
          if nm == "AbortError" then
            ⟨mkJson 504
              [("error", .str "Gateway Timeout"), ("message", .str proxyTimeoutMessage)],
             some (proxy2Call key b)⟩
          else
            ⟨mkJson 500 [("error", .str "Request Failed"), ("message", .str msg)],
             some (proxy2Call key b)⟩
  | _ => ⟨method405, none⟩

/-- Does some string-valued field of a JSON response body contain `sub`? -/
def bodyContainsStr (rb : RespBody) (sub : String) : Bool :=
  match rb with
  | .json fields =>
    fields.any (fun kv =>
      match kv.2 with
      | .str s => containsStr s sub
      | _ => false)
  | _ => false

/- ### Claims -/

/-- C8: for every request to the dedicated streaming endpoint, the outbound
payload (`cleanedParams` of `streaming-edge.js`) has `stream: true`,
regardless of the inbound request's `stream` value — the field is hard-coded
to `true` and, being neither `undefined` nor `null`, survives the cleanup
filter. -/
theorem claim8_stream_forced (b : ReqBody) :
    getField (cleanedParams b) "stream" = JVal.jbool true := by
  unfold cleanedParams
  rw [getField_filter_cons_ne _ _ _ _ (by rfl)]
  rw [getField_filter_cons_ne _ _ _ _ (by rfl)]
  rw [getField_filter_cons_ne _ _ _ _ (by rfl)]
  rw [getField_filter_cons_ne _ _ _ _ (by rfl)]
  rw [getField_filter_cons_ne _ _ _ _ (by rfl)]
  rw [getField_filter_cons_self _ _ _ _ (by rfl) (by rfl)]

lemma outbound_maxTokens (b : ReqBody) (now : Int)
    (h : isNumericOrAbsent (getField b "max_tokens") = true) :
    getField (cleanedParams b) "max_tokens"
      = validatedMaxTokens (getField b "max_tokens")
    ∧ getField (proxyOutboundBody b now) "max_tokens"
      = validatedMaxTokens (getField b "max_tokens")
    ∧ getField (proxy2OutboundBody b) "max_tokens"
      = validatedMaxTokens (getField b "max_tokens") := by
  obtain ⟨n, hn⟩ := validatedMaxTokens_isNum _ h
  refine ⟨?_, ?_, ?_⟩
  · unfold cleanedParams
    rw [getField_filter_cons_ne _ _ _ _ (by rfl)]
    rw [getField_filter_cons_ne _ _ _ _ (by rfl)]
    rw [getField_filter_cons_self _ _ _ _ (by rfl) (by rw [hn]; rfl)]
  · unfold proxyOutboundBody modifiedRequestBody
    rw [getField_stringifyFields _ _ ?_]
    · rw [getField_setField_ne _ _ _ _ (by rfl)]
      exact getField_setField_self _ _ _
    · rw [getField_setField_ne _ _ _ _ (by rfl), getField_setField_self, hn]
      simp
  · unfold proxy2OutboundBody
    rw [getField_stringifyFields _ _ ?_]
    · exact getField_setField_self _ _ _
    · rw [getField_setField_self, hn]
      simp

/-- C2: for every chat-endpoint request (the streaming edge endpoint and both
buffered Fireworks proxies) whose inbound `max_tokens` is a number, `null` or
absent, the outbound payload's `max_tokens` is the inbound value clamped into
[1, 8192]: values inside the range pass through unchanged, every value
outside is mapped into the range, an absent value defaults to 4096 before
clamping, and the spec's scenario value 999999 becomes 8192. -/
theorem claim2_max_tokens_clamped (b : ReqBody) (now : Int)
    (h : isNumericOrAbsent (getField b "max_tokens") = true) :
    (getField (cleanedParams b) "max_tokens"
        = validatedMaxTokens (getField b "max_tokens")
      ∧ getField (proxyOutboundBody b now) "max_tokens"
        = validatedMaxTokens (getField b "max_tokens")
      ∧ getField (proxy2OutboundBody b) "max_tokens"
        = validatedMaxTokens (getField b "max_tokens"))
    ∧ (∀ n : Int, 1 ≤ n → n ≤ 8192 → validatedMaxTokens (.num n) = .num n)
    ∧ (∀ n : Int, ∃ m : Int,
        validatedMaxTokens (.num n) = .num m ∧ 1 ≤ m ∧ m ≤ 8192)
    ∧ validatedMaxTokens .undef = .num 4096
    ∧ validatedMaxTokens (.num 999999) = .num 8192 := by
  refine ⟨outbound_maxTokens b now h, ?_, ?_, by decide, by decide⟩
  · intro n h1 h2
    have hne : ¬ n = 0 := by omega
    simp [validatedMaxTokens, defaultedMaxTokens, jsOr, truthy, hne,
      clampNum_id n h1 h2]
  · intro n
    by_cases h0 : n = 0
    · subst h0
      exact ⟨4096, by decide, by norm_num, by norm_num⟩
    · exact ⟨clampNum n,
        by simp [validatedMaxTokens, defaultedMaxTokens, jsOr, truthy, h0],
        (clampNum_mem n).1, (clampNum_mem n).2⟩

/-- Witness for C2 at the spec's scenario: inbound `max_tokens: 999999`. -/
theorem claim2_witness :
    isNumericOrAbsent
        (getField [("model", JVal.str "x"), ("max_tokens", JVal.num 999999)] "max_tokens") = true
    ∧ getField (cleanedParams [("model", JVal.str "x"), ("max_tokens", JVal.num 999999)]) "max_tokens"
        = validatedMaxTokens
            (getField [("model", JVal.str "x"), ("max_tokens", JVal.num 999999)] "max_tokens")
    ∧ validatedMaxTokens
        (getField [("model", JVal.str "x"), ("max_tokens", JVal.num 999999)] "max_tokens")
        = JVal.num 8192 :=
  ⟨by decide,
   (claim2_max_tokens_clamped [("model", JVal.str "x"), ("max_tokens", JVal.num 999999)] 0
      (by decide)).1.1,
   by decide⟩

/-- C10: for every chat-endpoint request whose inbound `max_tokens` is falsy
(0, `null`, or absent), the outbound `max_tokens` is the default 4096 — in
particular an inbound 0 is treated as absent by `max_tokens || 4096` and is
not clamped to the lower bound 1. -/
theorem claim10_falsy_defaults (v : JVal) (b : ReqBody) (now : Int)
    (hv : v = JVal.num 0 ∨ v = JVal.null ∨ v = JVal.undef)
    (hb : getField b "max_tokens" = v) :
    validatedMaxTokens v = JVal.num 4096
    ∧ validatedMaxTokens v ≠ JVal.num 1
    ∧ getField (cleanedParams b) "max_tokens" = JVal.num 4096
    ∧ getField (proxyOutboundBody b now) "max_tokens" = JVal.num 4096
    ∧ getField (proxy2OutboundBody b) "max_tokens" = JVal.num 4096 := by
  have hnum : isNumericOrAbsent v = true := by
    rcases hv with h | h | h <;> subst h <;> decide
  have hval : validatedMaxTokens v = JVal.num 4096 := by
    rcases hv with h | h | h <;> subst h <;> decide
  obtain ⟨h1, h2, h3⟩ := outbound_maxTokens b now (by rw [hb]; exact hnum)
  rw [hb, hval] at h1 h2 h3
  exact ⟨hval, by rw [hval]; decide, h1, h2, h3⟩

/-- Witness for C10 at inbound `max_tokens: 0`. -/
theorem claim10_witness :
    (JVal.num 0 = JVal.num 0 ∨ JVal.num 0 = JVal.null ∨ JVal.num 0 = JVal.undef)
    ∧ getField [("max_tokens", JVal.num 0)] "max_tokens" = JVal.num 0
    ∧ (validatedMaxTokens (JVal.num 0) = JVal.num 4096
      ∧ validatedMaxTokens (JVal.num 0) ≠ JVal.num 1
      ∧ getField (cleanedParams [("max_tokens", JVal.num 0)]) "max_tokens" = JVal.num 4096
      ∧ getField (proxyOutboundBody [("max_tokens", JVal.num 0)] 0) "max_tokens" = JVal.num 4096
      ∧ getField (proxy2OutboundBody [("max_tokens", JVal.num 0)]) "max_tokens" = JVal.num 4096) :=
  ⟨Or.inl rfl, by decide,
   claim10_falsy_defaults (JVal.num 0) [("max_tokens", JVal.num 0)] 0 (Or.inl rfl) (by decide)⟩

/-- C1 counterexample: the claim quantifies over every streamed relay, but the
`pipe` streaming branch of the second Fireworks proxy writes no termination
sentinel of its own — an upstream body of two chunks `"a"`, `"b"` that then
closes yields a client trace of exactly the two forwarded chunks and the
close, with no `data: [DONE]` write anywhere. -/
theorem claim1_counterexample :
    pipeTrace ["a", "b"]
      ≠ [RelayAct.write "a", RelayAct.write "b",
         RelayAct.write doneChunk, RelayAct.close]
    ∧ RelayAct.write doneChunk ∉ pipeTrace ["a", "b"] := by
  decide

/-- C1 amended: in the edge streaming endpoint (`pump`), every upstream chunk
is forwarded unmodified and in order, on completion the relay writes the
`data: [DONE]` sentinel and closes exactly once, and on a mid-stream failure
it writes one error-shaped chunk, then the sentinel, then closes; the `pipe`
branch of the second Fireworks proxy forwards every chunk unmodified and in
order and closes exactly once, but appends no sentinel of its own. -/
theorem claim1_relay_traces (chunks : List String) (fin : StreamEnd) :
    pumpTrace chunks fin = chunks.map RelayAct.write ++ finTrace fin
    ∧ closeCount (pumpTrace chunks fin) = 1
    ∧ finTrace StreamEnd.done = [RelayAct.write doneChunk, RelayAct.close]
    ∧ (∀ m : String, finTrace (StreamEnd.errored m)
        = [RelayAct.write (errChunk m), RelayAct.write doneChunk, RelayAct.close])
    ∧ pipeTrace chunks = chunks.map RelayAct.write ++ [RelayAct.close]
    ∧ closeCount (pipeTrace chunks) = 1 := by
  refine ⟨pumpTrace_eq chunks fin, ?_, rfl, fun m => rfl, rfl, ?_⟩
  · rw [pumpTrace_eq, closeCount_writes]
    cases fin <;> rfl
  · unfold pipeTrace
    rw [closeCount_writes]
    rfl

/-- C3 counterexample: the buffered `proxy.js` endpoint builds its outbound
body by spreading the inbound request, so a `null`-valued field survives into
the serialized outbound payload instead of being stripped — inbound
`\x7bmodel: "x", temperature: null\x7d` yields an outbound body that still
carries `temperature: null`. -/
theorem claim3_counterexample :
    ("temperature", JVal.null)
      ∈ proxyOutboundBody [("model", JVal.str "x"), ("temperature", JVal.null)] 0
    ∧ getField (proxyOutboundBody [("model", JVal.str "x"), ("temperature", JVal.null)] 0)
        "temperature" = JVal.null := by
  decide

/-- C3 amended: only the dedicated streaming endpoint strips both `undefined`
and `null` fields from its outbound payload; the two buffered Fireworks
proxies forward the spread inbound fields, where serialization drops
`undefined`-valued fields but `null`-valued fields are preserved. -/
theorem claim3_outbound_sanitized (b : ReqBody) (now : Int) :
    (∀ kv ∈ cleanedParams b, kv.2 ≠ JVal.undef ∧ kv.2 ≠ JVal.null)
    ∧ (∀ kv ∈ proxyOutboundBody b now, kv.2 ≠ JVal.undef)
    ∧ (∀ kv ∈ proxy2OutboundBody b, kv.2 ≠ JVal.undef) := by
  refine ⟨?_, ?_, ?_⟩
  · intro kv hkv
    have hp := List.of_mem_filter hkv
    simp only [notNullish, Bool.and_eq_true, bne_iff_ne] at hp
    exact hp
  · intro kv hkv
    have hp := List.of_mem_filter hkv
    simpa [bne_iff_ne] using hp
  · intro kv hkv
    have hp := List.of_mem_filter hkv
    simpa [bne_iff_ne] using hp

/-- Witness for C3 at the empty inbound body: the `stream` field of the
cleaned payload is a concrete member stripped of nothing. -/
theorem claim3_witness :
    ("stream", JVal.jbool true) ∈ cleanedParams []
    ∧ (("stream", JVal.jbool true).2 ≠ JVal.undef
      ∧ ("stream", JVal.jbool true).2 ≠ JVal.null) :=
  ⟨by decide,
   (claim3_outbound_sanitized [] 0).1 ("stream", JVal.jbool true) (by decide)⟩

/-- C4 counterexample: the research-agent endpoint (`agents/execute` in
`proxy.js`) sends its resolved credential in the request body, not in an
authorization header — its header list has no `Authorization` entry at all,
and the `deployment_token` field of the payload carries the secret. -/
theorem claim4_counterexample :
    (researchCall "tok" "id" []).headers.find? (fun h => h.1 == "Authorization") = none
    ∧ ("deployment_token", JVal.str "tok") ∈ (researchCall "tok" "id" []).body := by
  decide

/-- C4 amended: the three Fireworks chat endpoints and the web-search
endpoint carry the resolved credential as a `Bearer` token in an
`Authorization` header and their outbound bodies are independent of the
credential; the research-agent endpoint instead sends only a `Content-Type`
header and carries its deployment token inside the request body. -/
theorem claim4_credential_placement (k1 k2 tok did : String) (b : ReqBody) (now : Int) :
    ("Authorization", "Bearer " ++ k1) ∈ (edgeCall k1 b).headers
    ∧ ("Authorization", "Bearer " ++ k1) ∈ (proxyCall k1 b now).headers
    ∧ ("Authorization", "Bearer " ++ k1) ∈ (proxy2Call k1 b).headers
    ∧ ("Authorization", "Bearer " ++ tok) ∈ (websearchCall tok did b).headers
    ∧ (edgeCall k1 b).body = (edgeCall k2 b).body
    ∧ (proxyCall k1 b now).body = (proxyCall k2 b now).body
    ∧ (proxy2Call k1 b).body = (proxy2Call k2 b).body
    ∧ (websearchCall tok did b).body = (websearchCall k2 did b).body
    ∧ (researchCall tok did b).headers = [("Content-Type", "application/json")]
    ∧ ("deployment_token", JVal.str tok) ∈ (researchCall tok did b).body := by
  refine ⟨?_, ?_, ?_, ?_, rfl, rfl, rfl, rfl, rfl, ?_⟩
  · simp [edgeCall]
  · simp [proxyCall]
  · simp [proxy2Call]
  · simp [websearchCall]
  · simp [researchCall]

lemma containsStr_or_fallback (t fb : String) :
    containsStr (if t != "" then t else fb) t = true := by
  by_cases h : t = ""
  · subst h
    rw [show (("" : String) != "") = false from rfl]
    simpa using containsStr_empty fb
  · have hb : (t != "") = true := by
      simp [bne, h]
    rw [hb]
    simpa using containsStr_self t

/-- C5 counterexample: when the upstream error body cannot be read, the
streaming edge endpoint relays the status but falls back to the message
`API Error: <status code>`, which contains neither the (unreadable) error
body nor the upstream status text — at upstream status 429 / "Too Many
Requests" with a failing body read, the relayed body does not mention the
status text. -/
theorem claim5_counterexample :
    (streamingEdgeHandler .post (some "k") (.ok [])
        (.resp ⟨429, "Too Many Requests", Except.error "boom", [], JVal.undef⟩)
        [] .done).resp.status = 429
    ∧ bodyContainsStr
        (streamingEdgeHandler .post (some "k") (.ok [])
          (.resp ⟨429, "Too Many Requests", Except.error "boom", [], JVal.undef⟩)
          [] .done).resp.body "Too Many Requests" = false := by
  decide

/-- C5 amended: for every request for which the upstream responds with a
non-success status and the error body can be read, every endpoint relays the
upstream status verbatim and its response body includes the upstream error
body (trivially so when that body is empty). -/
theorem claim5_error_relay (key tok did : String) (b : ReqBody) (now : Int)
    (r : UpResp) (t : String) (chunks : List String) (fin : StreamEnd)
    (hok : okStatus r.status = false) (ht : r.textResult = Except.ok t)
    (hq : truthy (getField b "query") = true) :
    ((streamingEdgeHandler .post (some key) (.ok b) (.resp r) chunks fin).resp.status = r.status
      ∧ bodyContainsStr
          (streamingEdgeHandler .post (some key) (.ok b) (.resp r) chunks fin).resp.body t = true)
    ∧ ((proxyHandler .post (some key) (.ok b) now (.resp r)).resp.status = r.status
      ∧ bodyContainsStr
          (proxyHandler .post (some key) (.ok b) now (.resp r)).resp.body t = true)
    ∧ ((proxy2Handler .post (some key) (.ok b) (.resp r) chunks).resp.status = r.status
      ∧ bodyContainsStr
          (proxy2Handler .post (some key) (.ok b) (.resp r) chunks).resp.body t = true)
    ∧ ((researchHandler .post (some tok) (some did) (.ok b) (.resp r)).resp.status = r.status
      ∧ bodyContainsStr
          (researchHandler .post (some tok) (some did) (.ok b) (.resp r)).resp.body t = true)
    ∧ ((websearchHandler .post (some tok) (some did) (.ok b) (.resp r)).resp.status = r.status
      ∧ bodyContainsStr
          (websearchHandler .post (some tok) (some did) (.ok b) (.resp r)).resp.body t = true) := by
  refine ⟨⟨?_, ?_⟩, ⟨?_, ?_⟩, ⟨?_, ?_⟩, ⟨?_, ?_⟩, ⟨?_, ?_⟩⟩
  · simp [streamingEdgeHandler, hok, mkJson]
  · simp only [streamingEdgeHandler, hok, mkJson, bodyContainsStr, edgeErrorMessage, ht]
    simp only [Bool.false_eq_true, if_false]
    by_cases h : t = ""
    · subst h
      simp [containsStr_empty]
    · simp [h, containsStr_self]
  · simp [proxyHandler, hok, ht, mkJson]
  · simp [proxyHandler, hok, ht, mkJson, bodyContainsStr, containsStr_self]
  · simp [proxy2Handler, hok, ht, mkJson]
  · simp [proxy2Handler, hok, ht, mkJson, bodyContainsStr, proxy2ErrorDetails,
      containsStr_self]
  · simp [researchHandler, hok, ht, hq, mkJson]
  · simp [researchHandler, hok, ht, hq, mkJson, bodyContainsStr, containsStr_self]
  · simp [websearchHandler, hok, ht, hq, mkJson]
  · simp [websearchHandler, hok, ht, hq, mkJson, bodyContainsStr, containsStr_self]

/-- Witness for C5 at the spec's scenario: upstream 429 with readable body
"rate limited". -/
theorem claim5_witness :
    okStatus 429 = false
    ∧ (streamingEdgeHandler .post (some "k") (.ok [("query", JVal.str "q")])
        (.resp ⟨429, "Too Many Requests", Except.ok "rate limited", [], JVal.undef⟩)
        [] .done).resp.status = 429
    ∧ bodyContainsStr
        (streamingEdgeHandler .post (some "k") (.ok [("query", JVal.str "q")])
          (.resp ⟨429, "Too Many Requests", Except.ok "rate limited", [], JVal.undef⟩)
          [] .done).resp.body "rate limited" = true :=
  ⟨by decide,
   (claim5_error_relay "k" "t" "d" [("query", JVal.str "q")] 0
      ⟨429, "Too Many Requests", Except.ok "rate limited", [], JVal.undef⟩
      "rate limited" [] .done (by decide) rfl (by decide)).1.1,
   (claim5_error_relay "k" "t" "d" [("query", JVal.str "q")] 0
      ⟨429, "Too Many Requests", Except.ok "rate limited", [], JVal.undef⟩
      "rate limited" [] .done (by decide) rfl (by decide)).1.2⟩

/-- C6 counterexample: the buffered `proxy.js` endpoint answers a missing
`FIREWORKS_API_KEY` with status 500 and no outbound call, but its body is
only `\x7berror: "API key not configured on server"\x7d` — no field names
the missing configuration key. -/
theorem claim6_counterexample :
    (proxyHandler .post none (.ok []) 0 (.failure "x" "y")).resp.status = 500
    ∧ (proxyHandler .post none (.ok []) 0 (.failure "x" "y")).call = none
    ∧ bodyContainsStr (proxyHandler .post none (.ok []) 0 (.failure "x" "y")).resp.body
        "FIREWORKS_API_KEY" = false := by
  refine ⟨rfl, rfl, ?_⟩
  decide

/-- C6 amended: for every request in which a required secret is absent, every
endpoint responds with status 500 and attempts no outbound call; every
endpoint except the buffered `proxy.js` handler also names the missing
configuration key(s) in its message, while `proxy.js` answers with the
generic `API key not configured on server`. -/
theorem claim6_missing_secret (parsed : Except String ReqBody) (now : Int)
    (up : UpstreamOutcome) (chunks : List String) (fin : StreamEnd)
    (tk did : String) :
    ((streamingEdgeHandler .post none parsed up chunks fin).resp.status = 500
      ∧ (streamingEdgeHandler .post none parsed up chunks fin).call = none
      ∧ bodyContainsStr (streamingEdgeHandler .post none parsed up chunks fin).resp.body
          "FIREWORKS_API_KEY" = true)
    ∧ ((proxyHandler .post none parsed now up).resp.status = 500
      ∧ (proxyHandler .post none parsed now up).call = none)
    ∧ ((researchHandler .post none (some did) parsed up).resp.status = 500
      ∧ (researchHandler .post none (some did) parsed up).call = none
      ∧ bodyContainsStr (researchHandler .post none (some did) parsed up).resp.body
          "ABACUS_DEPLOYMENT_TOKEN" = true
      ∧ bodyContainsStr (researchHandler .post none (some did) parsed up).resp.body
          "ABACUS_DEPLOYMENT_ID" = true)
    ∧ ((researchHandler .post (some tk) none parsed up).resp.status = 500
      ∧ (researchHandler .post (some tk) none parsed up).call = none)
    ∧ ((websearchHandler .post none (some did) parsed up).resp.status = 500
      ∧ (websearchHandler .post none (some did) parsed up).call = none
      ∧ bodyContainsStr (websearchHandler .post none (some did) parsed up).resp.body
          "ABACUS_WEBSEARCH_TOKEN" = true
      ∧ bodyContainsStr (websearchHandler .post none (some did) parsed up).resp.body
          "ABACUS_WEBSEARCH_ID" = true)
    ∧ ((websearchHandler .post (some tk) none parsed up).resp.status = 500
      ∧ (websearchHandler .post (some tk) none parsed up).call = none)
    ∧ ((proxy2Handler .post none parsed up chunks).resp.status = 500
      ∧ (proxy2Handler .post none parsed up chunks).call = none
      ∧ bodyContainsStr (proxy2Handler .post none parsed up chunks).resp.body
          "FIREWORKS_API_KEY" = true) := by
  exact ⟨⟨rfl, rfl, by rfl⟩, ⟨rfl, rfl⟩, ⟨rfl, rfl, by rfl, by rfl⟩,
    ⟨rfl, rfl⟩, ⟨rfl, rfl, by rfl, by rfl⟩, ⟨rfl, rfl⟩, ⟨rfl, rfl, by rfl⟩⟩

/-- C7: for every request on the four endpoints that install an abort timer
(`proxy.js` buffered, the second Fireworks proxy, the research agent, the
web search), an upstream call that is aborted on timeout (the fetch rejects
with an `AbortError`, which only `controller.abort()` fired by the
`setTimeout` of the configured bound produces) yields status 504 with a
message mentioning the configured timeout duration (120000 ms rendered as
"120 seconds", 180000 ms as "3 minutes", 30000 ms as "30 seconds"); the
streaming edge endpoint installs no timer and is out of scope. -/
theorem claim7_timeout_504 (key tok did : String) (b : ReqBody) (now : Int)
    (msg : String) (chunks : List String)
    (hq : truthy (getField b "query") = true) :
    ((proxyHandler .post (some key) (.ok b) now (.failure "AbortError" msg)).resp.status = 504
      ∧ bodyContainsStr
          (proxyHandler .post (some key) (.ok b) now (.failure "AbortError" msg)).resp.body
          (toString (proxyTimeoutMs / 1000) ++ " seconds") = true)
    ∧ ((proxy2Handler .post (some key) (.ok b) (.failure "AbortError" msg) chunks).resp.status = 504
      ∧ bodyContainsStr
          (proxy2Handler .post (some key) (.ok b) (.failure "AbortError" msg) chunks).resp.body
          (toString (proxy2TimeoutMs / 1000) ++ " seconds") = true)
    ∧ ((researchHandler .post (some tok) (some did) (.ok b) (.failure "AbortError" msg)).resp.status = 504
      ∧ bodyContainsStr
          (researchHandler .post (some tok) (some did) (.ok b) (.failure "AbortError" msg)).resp.body
          (toString (researchTimeoutMs / 60000) ++ " minutes") = true)
    ∧ ((websearchHandler .post (some tok) (some did) (.ok b) (.failure "AbortError" msg)).resp.status = 504
      ∧ bodyContainsStr
          (websearchHandler .post (some tok) (some did) (.ok b) (.failure "AbortError" msg)).resp.body
          (toString (websearchTimeoutMs / 1000) ++ " seconds") = true) := by
  have hpr : (proxyHandler .post (some key) (.ok b) now (.failure "AbortError" msg)).resp
      = mkJson 504
          [("error", JVal.str "Gateway Timeout"), ("message", JVal.str proxyTimeoutMessage)] := rfl
  have hp2 : (proxy2Handler .post (some key) (.ok b) (.failure "AbortError" msg) chunks).resp
      = mkJson 504
          [("error", JVal.str "Gateway Timeout"), ("message", JVal.str proxyTimeoutMessage)] := rfl
  have hre : (researchHandler .post (some tok) (some did) (.ok b) (.failure "AbortError" msg)).resp
      = mkJson 504
          [("error", JVal.str "Gateway Timeout"), ("message", JVal.str researchTimeoutMessage)] := by
    simp [researchHandler, hq]
  have hws : (websearchHandler .post (some tok) (some did) (.ok b) (.failure "AbortError" msg)).resp
      = mkJson 504
          [("error", JVal.str "Gateway Timeout"), ("message", JVal.str websearchTimeoutMessage)] := by
    simp [websearchHandler, hq]
  refine ⟨⟨?_, ?_⟩, ⟨?_, ?_⟩, ⟨?_, ?_⟩, ⟨?_, ?_⟩⟩
  · rw [hpr]; rfl
  · rw [hpr]; decide
  · rw [hp2]; rfl
  · rw [hp2]; decide
  · rw [hre]; rfl
  · rw [hre]; decide
  · rw [hws]; rfl
  · rw [hws]; decide

/-- Witness for C7 at a concrete request with a non-empty query. -/
theorem claim7_witness :
    truthy (getField [("query", JVal.str "q")] "query") = true
    ∧ (proxyHandler .post (some "k") (.ok [("query", JVal.str "q")]) 0
        (.failure "AbortError" "m")).resp.status = 504
    ∧ bodyContainsStr
        (proxyHandler .post (some "k") (.ok [("query", JVal.str "q")]) 0
          (.failure "AbortError" "m")).resp.body
        (toString (proxyTimeoutMs / 1000) ++ " seconds") = true :=
  ⟨by decide,
   (claim7_timeout_504 "k" "t" "d" [("query", JVal.str "q")] 0 "m" [] (by decide)).1.1,
   (claim7_timeout_504 "k" "t" "d" [("query", JVal.str "q")] 0 "m" [] (by decide)).1.2⟩

lemma corsHeader_mem_mkJson (s : Nat) (f : ReqBody) :
    corsHeader ∈ (mkJson s f).headers := by
  simp [mkJson]

lemma corsHeader_mem_mk200 (f : ReqBody) : corsHeader ∈ (mk200 f).headers := by
  simp [mk200]

lemma corsHeader_mem_method405 : corsHeader ∈ method405.headers := by
  simp [method405]

lemma corsHeader_mem_streamResponse (t : List RelayAct) :
    corsHeader ∈ (streamResponse t).headers := by
  simp [streamResponse]

lemma corsHeader_mem_preflight_agent :
    corsHeader ∈ (preflight agentPreflightHeaders).headers := by
  simp [preflight, agentPreflightHeaders]

lemma corsHeader_mem_preflight_proxy :
    corsHeader ∈ (preflight proxyPreflightHeaders).headers := by
  simp [preflight, proxyPreflightHeaders]

/-- C9: on every response path of every endpoint — preflight,
method-not-allowed, configuration error, parse error, validation error,
upstream error, timeout, transport failure, and success (buffered or
streamed) — the response carries `Access-Control-Allow-Origin: *`. -/
theorem claim9_cors_everywhere :
    (∀ (m : Method) (k : Option String) (parsed : Except String ReqBody)
        (up : UpstreamOutcome) (chunks : List String) (fin : StreamEnd),
      corsHeader ∈ (streamingEdgeHandler m k parsed up chunks fin).resp.headers)
    ∧ (∀ (m : Method) (k : Option String) (parsed : Except String ReqBody)
        (now : Int) (up : UpstreamOutcome),
      corsHeader ∈ (proxyHandler m k parsed now up).resp.headers)
    ∧ (∀ (m : Method) (tk did : Option String) (parsed : Except String ReqBody)
        (up : UpstreamOutcome),
      corsHeader ∈ (researchHandler m tk did parsed up).resp.headers)
    ∧ (∀ (m : Method) (tk did : Option String) (parsed : Except String ReqBody)
        (up : UpstreamOutcome),
      corsHeader ∈ (websearchHandler m tk did parsed up).resp.headers)
    ∧ (∀ (m : Method) (k : Option String) (parsed : Except String ReqBody)
        (up : UpstreamOutcome) (chunks : List String),
      corsHeader ∈ (proxy2Handler m k parsed up chunks).resp.headers) := by
  refine ⟨?_, ?_, ?_, ?_, ?_⟩
  · intro m k parsed up chunks fin
    unfold streamingEdgeHandler
    repeat' split
    all_goals
      first
      | exact corsHeader_mem_preflight_agent
      | exact corsHeader_mem_method405
      | exact corsHeader_mem_mkJson _ _
      | exact corsHeader_mem_streamResponse _
  · intro m k parsed now up
    unfold proxyHandler
    repeat' split
    all_goals
      first
      | exact corsHeader_mem_preflight_proxy
      | exact corsHeader_mem_method405
      | exact corsHeader_mem_mkJson _ _
      | exact corsHeader_mem_mk200 _
  · intro m tk did parsed up
    unfold researchHandler
    repeat' split
    all_goals
      first
      | exact corsHeader_mem_preflight_agent
      | exact corsHeader_mem_method405
      | exact corsHeader_mem_mkJson _ _
      | exact corsHeader_mem_mk200 _
  · intro m tk did parsed up
    unfold websearchHandler
    repeat' split
    all_goals
      first
      | exact corsHeader_mem_preflight_agent
      | exact corsHeader_mem_method405
      | exact corsHeader_mem_mkJson _ _
      | exact corsHeader_mem_mk200 _
  · intro m k parsed up chunks
    unfold proxy2Handler
    repeat' split
    all_goals
      first
      | exact corsHeader_mem_preflight_agent
      | exact corsHeader_mem_method405
      | exact corsHeader_mem_mkJson _ _
      | exact corsHeader_mem_mk200 _
      | exact corsHeader_mem_streamResponse _
